import Mathlib

/-
Verification of the lambda-calculus AST framework (sandbox/lang/lambda/syntax.hpp).

The development shallowly embeds the node model of syntax.hpp:

* C++ pointers (Node*, Symbol*) become Option-values: none models a null
  pointer, some n models a pointer to the node value n.
* Each concrete implementation class (Variable_impl, Abstraction_impl,
  Application_impl, Definition_impl, Evaluation_impl, Program_impl) becomes a
  constructor of the inductive type Node.  The arity-shape templates
  (Nullary_node, Unary_node, Binary_node, Multi_node) are folded into the
  constructors that instantiate them: variable_impl carries no child slots
  (Nullary_node's empty array), evaluation_impl carries one child slot
  (Unary_node's nodes[1]), the three binary constructors carry two slots
  (Binary_node's nodes[2]), and program_impl carries a growable list
  (Multi_node's std::vector).
* The virtual begin()/end() child range of a node is the list `children`.
* dynamic_cast-based `as`/`is` are modelled by a table of the C++ class
  hierarchy: each concrete node's dynamic type derives from a fixed set of
  interface classes, and the cast succeeds exactly on those.
-/

namespace Lambda

/-- External Symbol service: a handle with a stable spelling.
Only the `spelling` member is used by syntax.hpp (Variable_impl::name). -/
structure Symbol where
  spelling : String
deriving DecidableEq

/-- The concrete node values of the language implementation layer of
syntax.hpp.  Child slots hold Option Node: none is a null Node* / Statement*,
exactly as the C++ constructors would store a null pointer. -/
inductive Node : Type where
  | variable_impl (sym : Option Symbol)
  | abstraction_impl (l r : Option Node)
  | application_impl (l r : Option Node)
  | definition_impl (l r : Option Node)
  | evaluation_impl (c : Option Node)
  | program_impl (stmts : List (Option Node))

/-- Node::Kind, the closed tag enumeration of syntax.hpp. -/
inductive Kind where
  | Program_node
  | Variable_node
  | Abstraction_node
  | Application_node
  | Definition_node
  | Evaluation_node
deriving DecidableEq

/-- The kind member of Node.  Every interface-class constructor passes its
unique tag to the Node base constructor (Variable sets Variable_node, and so
on), and nothing ever writes the member afterwards, so in the embedding kind
is a pure function of the concrete node. -/
def kind : Node → Kind
  | .variable_impl _ => .Variable_node
  | .abstraction_impl _ _ => .Abstraction_node
  | .application_impl _ _ => .Application_node
  | .definition_impl _ _ => .Definition_node
  | .evaluation_impl _ => .Evaluation_node
  | .program_impl _ => .Program_node

/-- The child range exposed by the virtual begin()/end() pair.
Nullary_node yields the empty range (begin() == end() at the empty array),
Unary_node yields nodes[0..1], Binary_node yields nodes[0..2], and
Multi_node yields the whole vector in storage order. -/
def children : Node → List (Option Node)
  | .variable_impl _ => []
  | .abstraction_impl l r => [l, r]
  | .application_impl l r => [l, r]
  | .definition_impl l r => [l, r]
  | .evaluation_impl c => [c]
  | .program_impl stmts => stmts

/-- The interface classes of the C++ hierarchy that occur as targets of the
dynamic type query (`as`/`is` of syntax.hpp). -/
inductive Iface where
  | NodeC
  | TermC
  | VariableC
  | ApplicationC
  | AbstractionC
  | StatementC
  | DefinitionC
  | EvaluationC
  | ProgramC
deriving DecidableEq

/-- The class-hierarchy table: derivesFrom n c is true exactly when the
dynamic type of the object n (one of the six implementation classes) derives
from the interface class c.  This is the C++ inheritance structure:
Variable_impl <: Variable <: Term <: Node, Abstraction_impl <: Abstraction <:
Term <: Node, Application_impl <: Application <: Term <: Node,
Definition_impl <: Definition <: Statement <: Node, Evaluation_impl <:
Evaluation <: Statement <: Node, Program_impl <: Program <: Node. -/
def derivesFrom : Node → Iface → Bool
  | .variable_impl _, .NodeC => true
  | .variable_impl _, .TermC => true
  | .variable_impl _, .VariableC => true
  | .variable_impl _, _ => false
  | .abstraction_impl _ _, .NodeC => true
  | .abstraction_impl _ _, .TermC => true
  | .abstraction_impl _ _, .AbstractionC => true
  | .abstraction_impl _ _, _ => false
  | .application_impl _ _, .NodeC => true
  | .application_impl _ _, .TermC => true
  | .application_impl _ _, .ApplicationC => true
  | .application_impl _ _, _ => false
  | .definition_impl _ _, .NodeC => true
  | .definition_impl _ _, .StatementC => true
  | .definition_impl _ _, .DefinitionC => true
  | .definition_impl _ _, _ => false
  | .evaluation_impl _, .NodeC => true
  | .evaluation_impl _, .StatementC => true
  | .evaluation_impl _, .EvaluationC => true
  | .evaluation_impl _, _ => false
  | .program_impl _, .NodeC => true
  | .program_impl _, .ProgramC => true
  | .program_impl _, _ => false

/-- as<T>(node): dynamic_cast<T*>(node).  A null pointer casts to null; a
non-null pointer casts to itself when its dynamic type derives from the
target class, and to null otherwise. -/
def as (c : Iface) : Option Node → Option Node
  | none => none
  | some n => if derivesFrom n c then some n else none

/-- is<T>(node): returns as<T>(node) != nullptr. -/
def is (c : Iface) (p : Option Node) : Bool :=
  (as c p).isSome

/-- A well-typed C++ pointer value of static type T*: either null or a
pointer to an object whose dynamic type derives from T.  Equivalently, the
dynamic cast back to T is the identity on it. -/
def IsPtr (c : Iface) (p : Option Node) : Prop :=
  as c p = p

/-- Multi_node::add_node: push_back on the node vector, appending at the
end.  add_node is a member of Multi_node only; the catch-all branch (keeping
any non-Multi node unchanged) is unreachable through the C++ API, where the
call does not type-check on other shapes. -/
def add_node : Node → Option Node → Node
  | .program_impl stmts, n => .program_impl (stmts ++ [n])
  | m, _ => m

/-- Program_impl::add_statement(stmt) { add_node(stmt); } -/
def add_statement (m : Node) (stmt : Option Node) : Node :=
  add_node m stmt

/-- Variable_impl::symbol(): the stored Symbol pointer.  The outer Option is
none on nodes that do not have this member. -/
def variable_symbol : Node → Option (Option Symbol)
  | .variable_impl s => some s
  | _ => none

/-- Variable_impl::name(): sym->spelling.  The inner Option is none when the
stored Symbol pointer is null, where the C++ dereference has no defined
result. -/
def variable_name : Node → Option (Option String)
  | .variable_impl s => some (s.map Symbol.spelling)
  | _ => none

/-- Abstraction_impl::var(): static_cast<Variable*>(nodes[0]), an unchecked
cast returning slot 0 unchanged. -/
def abstraction_var : Node → Option (Option Node)
  | .abstraction_impl l _ => some l
  | _ => none

/-- Abstraction_impl::term(): static_cast<Term*>(nodes[1]). -/
def abstraction_term : Node → Option (Option Node)
  | .abstraction_impl _ r => some r
  | _ => none

/-- Application_impl::func(): static_cast<Term*>(nodes[0]). -/
def application_func : Node → Option (Option Node)
  | .application_impl l _ => some l
  | _ => none

/-- Application_impl::arg(): static_cast<Term*>(nodes[1]). -/
def application_arg : Node → Option (Option Node)
  | .application_impl _ r => some r
  | _ => none

/-- Definition_impl::var(): as<Variable>(first()), a checked dynamic cast of
slot 0. -/
def definition_var : Node → Option (Option Node)
  | .definition_impl l _ => some (as .VariableC l)
  | _ => none

/-- Definition_impl::def(): as<Term>(second()). -/
def definition_def : Node → Option (Option Node)
  | .definition_impl _ r => some (as .TermC r)
  | _ => none

/-- Evaluation_impl::term(): as<Term>(first()). -/
def evaluation_term : Node → Option (Option Node)
  | .evaluation_impl c => some (as .TermC c)
  | _ => none

/-- Program_impl::statements(): the Node_range over begin()/end(), i.e. the
whole child vector; Node_range only reinterprets the element pointer type,
leaving the sequence of pointer values unchanged. -/
def program_statements : Node → Option (List (Option Node))
  | .program_impl stmts => some stmts
  | _ => none

/-- Unary_node::first() and Binary_node::first(): nodes[0].  The outer
Option is none on shapes without this member. -/
def first_acc : Node → Option (Option Node)
  | .abstraction_impl l _ => some l
  | .application_impl l _ => some l
  | .definition_impl l _ => some l
  | .evaluation_impl c => some c
  | _ => none

/-- Binary_node::second(): nodes[1]. -/
def second_acc : Node → Option (Option Node)
  | .abstraction_impl _ r => some r
  | .application_impl _ r => some r
  | .definition_impl _ r => some r
  | _ => none

/-- Binary_node::left(): nodes[0]. -/
def left_acc : Node → Option (Option Node)
  | .abstraction_impl l _ => some l
  | .application_impl l _ => some l
  | .definition_impl l _ => some l
  | _ => none

/-- Binary_node::right(): nodes[1]. -/
def right_acc : Node → Option (Option Node)
  | .abstraction_impl _ r => some r
  | .application_impl _ r => some r
  | .definition_impl _ r => some r
  | _ => none

mutual

/-- Modelled from the spec: the bodies of the Visitor default operations and
of the accept methods are declared in syntax.hpp but defined in a translation
unit that is not part of the sources.  Per the spec, accept dispatches to the
single most specific visit operation for the node, and the default behavior
of every category-level visit operation is to recursively visit all direct
children in range order.  walk n is the pre-order sequence of node kinds such
a default visitor dispatches on, starting from visit at n. -/
def walk : Node → List Kind
  | .variable_impl _ => [.Variable_node]
  | .abstraction_impl l r => .Abstraction_node :: (walkOpt l ++ walkOpt r)
  | .application_impl l r => .Application_node :: (walkOpt l ++ walkOpt r)
  | .definition_impl l r => .Definition_node :: (walkOpt l ++ walkOpt r)
  | .evaluation_impl c => .Evaluation_node :: walkOpt c
  | .program_impl stmts => .Program_node :: walkList stmts

/-- Modelled from the spec: visiting one child pointer of the range.  A null
child is skipped (the spec only defines traversal on well-formed trees, whose
children are all present). -/
def walkOpt : Option Node → List Kind
  | none => []
  | some n => walk n

/-- Modelled from the spec: visiting a child range front to back, as the
default category operations do. -/
def walkList : List (Option Node) → List Kind
  | [] => []
  | x :: xs => walkOpt x ++ walkList xs

end

/-- The scenario symbol x. -/
def xSym : Symbol := { spelling := "x" }

/-- Variable(x) of the default-traversal scenario. -/
def varX : Node := .variable_impl (some xSym)

/-- Abstraction(x, x) of the scenario: both child slots are Variable(x). -/
def absXX : Node := .abstraction_impl (some varX) (some varX)

/-- Application(Abstraction(x, x), Variable(x)) of the scenario. -/
def appScenario : Node := .application_impl (some absXX) (some varX)

/-- Evaluation(Application(...)) of the scenario. -/
def evalScenario : Node := .evaluation_impl (some appScenario)

/-- Program[Evaluation(...)] of the scenario. -/
def progScenario : Node := .program_impl [some evalScenario]

/-- Folding add_node over a program appends the added nodes in call order. -/
theorem add_node_foldl (adds : List (Option Node)) :
    ∀ init : List (Option Node),
      List.foldl add_node (.program_impl init) adds = .program_impl (init ++ adds) := by
  induction adds with
  | nil => intro init; simp [List.foldl]
  | cons a tl ih =>
      intro init
      simp only [List.foldl, add_node]
      rw [ih (init ++ [a])]
      simp

/-- Claim C1: for every Nullary node the child range is empty (begin() ==
end()); for every Unary node it holds exactly the one child supplied at
construction; for every Binary node exactly the two children in declared
order (left then right); for every Multi node the range is the add_node
arguments in insertion order, so its length is the number of add_node
calls. -/
theorem arity_child_ranges
    (s : Option Symbol) (l r c : Option Node) (adds : List (Option Node)) :
    children (.variable_impl s) = []
  ∧ children (.evaluation_impl c) = [c]
  ∧ children (.abstraction_impl l r) = [l, r]
  ∧ children (.application_impl l r) = [l, r]
  ∧ children (.definition_impl l r) = [l, r]
  ∧ children (List.foldl add_node (.program_impl []) adds) = adds := by
  refine ⟨rfl, rfl, rfl, rfl, rfl, ?_⟩
  rw [add_node_foldl adds []]
  simp [children]

/-- Claim C2: for every node pointer p and target class c, is c p is true
exactly when as c p is present, and as c p, when present, is p itself; in
particular an Application node casts to Variable as absent and to Term as
itself. -/
theorem downcast_as_is_agree (c : Iface) (p l r : Option Node) :
    is c p = (as c p).isSome
  ∧ (as c p = none ∨ as c p = p)
  ∧ as .VariableC (some (.application_impl l r)) = none
  ∧ as .TermC (some (.application_impl l r)) = some (.application_impl l r) := by
  refine ⟨rfl, ?_, rfl, rfl⟩
  cases p with
  | none => exact Or.inl rfl
  | some n =>
      cases hd : derivesFrom n c with
      | false => exact Or.inl (by simp [as, hd])
      | true => exact Or.inr (by simp [as, hd])

/-- Claim C3 (code evaluated at the failing input): the Unary_node and
Binary_node constructors accept a null child without any check, yielding a
constructed node whose child range contains the null pointer; nothing fails
at construction time. -/
theorem null_child_construction_accepted :
    children (Node.evaluation_impl none) = [none]
  ∧ kind (Node.evaluation_impl none) = .Evaluation_node
  ∧ children (Node.abstraction_impl none none) = [none, none]
  ∧ kind (Node.abstraction_impl none none) = .Abstraction_node :=
  ⟨rfl, rfl, rfl, rfl⟩

/-- Claim C4 (counterexample): under the spec-modelled default visitor the
scenario tree Program[Evaluation(Application(Abstraction(x, x),
Variable(x)))] produces three visits of Variable nodes (the abstraction
binder, the abstraction body and the application argument), so the claimed
count Variable=2 is false. -/
theorem default_walk_count_cex :
    ¬ ((walk progScenario).count Kind.Variable_node = 2) := by decide

/-- Claim C4 (amended): the default behavior of every category-level visit
operation is to visit the node and then recursively all its direct children
in range order; consequently on the scenario tree the per-kind visit counts
are Program=1, Evaluation=1, Application=1, Abstraction=1 and Variable=3. -/
theorem default_walk_visits_children_and_counts :
    (∀ n : Node, walk n = kind n :: walkList (children n))
  ∧ (walk progScenario).count Kind.Program_node = 1
  ∧ (walk progScenario).count Kind.Evaluation_node = 1
  ∧ (walk progScenario).count Kind.Application_node = 1
  ∧ (walk progScenario).count Kind.Abstraction_node = 1
  ∧ (walk progScenario).count Kind.Variable_node = 3 := by
  refine ⟨?_, by decide, by decide, by decide, by decide, by decide⟩
  intro n
  cases n <;> simp [walk, walkList, walkOpt, children, kind]

/-- Claim C5: the interface accessors of every concrete node return exactly
the constructor arguments: Variable_impl's symbol() and name(),
Abstraction_impl's var()/term(), Application_impl's func()/arg(),
Definition_impl's var()/def() and Evaluation_impl's term().  The checked
casts inside Definition_impl and Evaluation_impl are the identity because
the arguments are well-typed Variable* and Term* pointers. -/
theorem impl_accessors_return_ctor_args
    (s : Symbol) (p : Option Symbol) (v t f a dv dt et : Option Node)
    (hdv : IsPtr .VariableC dv) (hdt : IsPtr .TermC dt) (het : IsPtr .TermC et) :
    variable_symbol (.variable_impl p) = some p
  ∧ variable_name (.variable_impl (some s)) = some (some s.spelling)
  ∧ abstraction_var (.abstraction_impl v t) = some v
  ∧ abstraction_term (.abstraction_impl v t) = some t
  ∧ application_func (.application_impl f a) = some f
  ∧ application_arg (.application_impl f a) = some a
  ∧ definition_var (.definition_impl dv dt) = some dv
  ∧ definition_def (.definition_impl dv dt) = some dt
  ∧ evaluation_term (.evaluation_impl et) = some et := by
  exact ⟨rfl, rfl, rfl, rfl, rfl, rfl,
    congrArg some hdv, congrArg some hdt, congrArg some het⟩

/-- Claim C5 (witness): the accessor equations at concrete nodes. -/
theorem impl_accessors_return_ctor_args_witness :
    IsPtr .VariableC (some (.variable_impl none))
  ∧ IsPtr .TermC (some (.application_impl none none))
  ∧ IsPtr .TermC none
  ∧ (variable_symbol (.variable_impl (some { spelling := "x" }))
       = some (some { spelling := "x" })
     ∧ variable_name (.variable_impl (some { spelling := "x" }))
       = some (some "x")
     ∧ abstraction_var (.abstraction_impl none none) = some none
     ∧ abstraction_term (.abstraction_impl none none) = some none
     ∧ application_func (.application_impl none none) = some none
     ∧ application_arg (.application_impl none none) = some none
     ∧ definition_var (.definition_impl (some (.variable_impl none))
         (some (.application_impl none none)))
         = some (some (.variable_impl none))
     ∧ definition_def (.definition_impl (some (.variable_impl none))
         (some (.application_impl none none)))
         = some (some (.application_impl none none))
     ∧ evaluation_term (.evaluation_impl none) = some none) :=
  ⟨rfl, rfl, rfl,
   impl_accessors_return_ctor_args { spelling := "x" }
     (some { spelling := "x" }) none none none none
     (some (.variable_impl none)) (some (.application_impl none none)) none
     rfl rfl rfl⟩

/-- Claim C6: add_node on a Multi node appends at the end, extending and
never reordering the existing child sequence; three add_statement calls with
distinct Definitions on an empty Program yield statements() of length 3 in
call order. -/
theorem multi_append_insertion_order
    (l : List (Option Node)) (n : Option Node) (v1 t1 v2 t2 v3 t3 : Option Node)
    (h12 : Node.definition_impl v1 t1 ≠ Node.definition_impl v2 t2)
    (h13 : Node.definition_impl v1 t1 ≠ Node.definition_impl v3 t3)
    (h23 : Node.definition_impl v2 t2 ≠ Node.definition_impl v3 t3) :
    add_node (.program_impl l) n = .program_impl (l ++ [n])
  ∧ children (add_node (.program_impl l) n) = children (.program_impl l) ++ [n]
  ∧ program_statements
      (add_statement (add_statement (add_statement (.program_impl [])
        (some (.definition_impl v1 t1))) (some (.definition_impl v2 t2)))
        (some (.definition_impl v3 t3)))
      = some [some (.definition_impl v1 t1), some (.definition_impl v2 t2),
              some (.definition_impl v3 t3)] :=
  ⟨rfl, rfl, rfl⟩

/-- Claim C6 (witness): the append behavior at three concrete, pairwise
distinct Definition nodes. -/
theorem multi_append_insertion_order_witness :
    (Node.definition_impl (some (.variable_impl (some { spelling := "a" }))) none
       ≠ Node.definition_impl (some (.variable_impl (some { spelling := "b" }))) none)
  ∧ (Node.definition_impl (some (.variable_impl (some { spelling := "a" }))) none
       ≠ Node.definition_impl (some (.variable_impl (some { spelling := "c" }))) none)
  ∧ (Node.definition_impl (some (.variable_impl (some { spelling := "b" }))) none
       ≠ Node.definition_impl (some (.variable_impl (some { spelling := "c" }))) none)
  ∧ (add_node (.program_impl []) none = .program_impl [none]
     ∧ children (add_node (.program_impl []) none)
         = children (.program_impl ([] : List (Option Node))) ++ [none]
     ∧ program_statements
         (add_statement (add_statement (add_statement (.program_impl [])
           (some (.definition_impl
             (some (.variable_impl (some { spelling := "a" }))) none)))
           (some (.definition_impl
             (some (.variable_impl (some { spelling := "b" }))) none)))
           (some (.definition_impl
             (some (.variable_impl (some { spelling := "c" }))) none)))
         = some [some (.definition_impl
                   (some (.variable_impl (some { spelling := "a" }))) none),
                 some (.definition_impl
                   (some (.variable_impl (some { spelling := "b" }))) none),
                 some (.definition_impl
                   (some (.variable_impl (some { spelling := "c" }))) none)]) :=
  ⟨by simp, by simp, by simp,
   multi_append_insertion_order [] none
     (some (.variable_impl (some { spelling := "a" }))) none
     (some (.variable_impl (some { spelling := "b" }))) none
     (some (.variable_impl (some { spelling := "c" }))) none
     (by simp) (by simp) (by simp)⟩

/-- Claim C7: each constructor sets the kind tag uniquely matching its
concrete type, and no framework operation (in particular the only mutator,
the Multi append) changes the kind of a node after construction. -/
theorem kind_fixed_by_construction
    (s : Option Symbol) (l r c n : Option Node)
    (stmts : List (Option Node)) (m : Node) :
    kind (.variable_impl s) = .Variable_node
  ∧ kind (.abstraction_impl l r) = .Abstraction_node
  ∧ kind (.application_impl l r) = .Application_node
  ∧ kind (.definition_impl l r) = .Definition_node
  ∧ kind (.evaluation_impl c) = .Evaluation_node
  ∧ kind (.program_impl stmts) = .Program_node
  ∧ kind (add_node m n) = kind m
  ∧ kind (add_statement m n) = kind m := by
  refine ⟨rfl, rfl, rfl, rfl, rfl, rfl, ?_, ?_⟩ <;> cases m <;> rfl

/-- Claim C8: on every Binary node the positional accessors alias the
operand accessors: first() equals left() and second() equals right(). -/
theorem binary_first_second_alias_left_right (l r : Option Node) :
    first_acc (.abstraction_impl l r) = left_acc (.abstraction_impl l r)
  ∧ second_acc (.abstraction_impl l r) = right_acc (.abstraction_impl l r)
  ∧ first_acc (.application_impl l r) = left_acc (.application_impl l r)
  ∧ second_acc (.application_impl l r) = right_acc (.application_impl l r)
  ∧ first_acc (.definition_impl l r) = left_acc (.definition_impl l r)
  ∧ second_acc (.definition_impl l r) = right_acc (.definition_impl l r) :=
  ⟨rfl, rfl, rfl, rfl, rfl, rfl⟩

/-- Claim C9: the dynamic type query tolerates a null input: for every
target class, as of null is null and is of null is false. -/
theorem downcast_null_tolerant (c : Iface) :
    as c none = none ∧ is c none = false :=
  ⟨rfl, rfl⟩

/-- Claim C10: statements() on a Program node is exactly the generic child
range of the node: the same elements in the same order as begin()/end(). -/
theorem program_statements_match_child_range (stmts : List (Option Node)) :
    program_statements (.program_impl stmts)
      = some (children (.program_impl stmts)) :=
  rfl

end Lambda
